import Mathlib

/-!
Shallow embedding of tiny_jrpc (src/tiny_jrpc/src/lib.rs): a JSON-RPC 2.0
server core on top of an HTTP transport.  We model the data types
(Request, Response, Id, RpcError), the request validator
(validate_jsonrpc_request), the dispatcher (handle_jsonrpc_request), the
POST arm of the worker loop in JsonRpcServer::run, the polling decision of
the worker loop, the serde serialization shape of Response, and the
stop / is_running / join_threads lifecycle surface.

External collaborators (tiny_http transport, serde_json parsing, the file
system for GET) are abstracted: the transport delivers an outcome
(request / timeout / error), the body reader and the JSON decoder are
parameters of the validator.  The error module (src/tiny_jrpc/src/error.rs)
is not part of the sources; its types are modelled from the spec where
noted.
-/

namespace TinyJrpc

/-- JSON values, standing in for serde_json::Value.  Numbers are modelled
as integers; the numeric representation is irrelevant to every property
proved here. -/
inductive Json where
  | null : Json
  | bool (b : Bool) : Json
  | num (n : Int) : Json
  | str (s : String) : Json
  | arr (xs : List Json) : Json
  | obj (fields : List (String × Json)) : Json

/-- enum Id: untagged sum of a u64 number or a string
(src/tiny_jrpc/src/lib.rs, lines 411-416). -/
inductive Id where
  | number (n : Nat) : Id
  | string (s : String) : Id
deriving DecidableEq, Repr

/-- Modelled from the spec: error.rs is not among the sources.  InnerError
kinds named by lib.rs and the spec error taxonomy: missing content type,
wrong content type, body read failure, malformed JSON, invalid protocol
version, reserved method prefix, serialization failure. -/
inductive InnerError where
  | noContentType : InnerError
  | wrongContentType : InnerError
  | ioError : InnerError
  | malformed : InnerError
  | invalidVersion : InnerError
  | reservedMethodPrefix : InnerError
  | serialization : InnerError
deriving DecidableEq, Repr

/-- struct RpcError (src/tiny_jrpc/src/lib.rs, lines 398-403). -/
structure RpcError where
  code : Int
  message : String
  data : Option Json

/-- Modelled from the spec: error.rs is not among the sources.  Error is
the tagged union of the internal error kinds, an opaque implementation
(handler) error, and the Stop shutdown sentinel; the implementation
payload is modelled by the RpcError it converts to. -/
inductive Error where
  | inner (e : InnerError) : Error
  | implementation (e : RpcError) : Error
  | stop : Error

/-- Modelled from the spec: the pure error-kind to wire-error mapping of
the AsRpcError trait (error.rs, not among the sources).  Codes follow the
spec taxonomy: parse errors -32700, structurally invalid request -32600,
implementation-defined server errors -32000; no claim proved here depends
on the particular codes. -/
def InnerError.asRpcError : InnerError → RpcError
  | .noContentType => ⟨-32600, "missing content type", none⟩
  | .wrongContentType => ⟨-32600, "wrong content type", none⟩
  | .ioError => ⟨-32600, "body read failure", none⟩
  | .malformed => ⟨-32700, "parse error", none⟩
  | .invalidVersion => ⟨-32000, "invalid jsonrpc version", none⟩
  | .reservedMethodPrefix => ⟨-32000, "reserved method prefix", none⟩
  | .serialization => ⟨-32600, "serialization error", none⟩

/-- Modelled from the spec: AsRpcError for Error (error.rs, not among the
sources).  Inner errors delegate; the implementation payload is already an
RpcError; Stop maps to an implementation-defined server error. -/
def Error.asRpcError : Error → RpcError
  | .inner e => e.asRpcError
  | .implementation e => e
  | .stop => ⟨-32000, "stop", none⟩

/-- struct Request (src/tiny_jrpc/src/lib.rs, lines 334-340). -/
structure Request where
  jsonrpc : String
  id : Option Id
  method : String
  params : Option Json

/-- struct Response (src/tiny_jrpc/src/lib.rs, lines 342-350).  The
serde skip_serializing_if attributes on result and error live in the
serialization function below. -/
structure Response where
  jsonrpc : String
  id : Option Id
  result : Option Json
  error : Option RpcError

/-- Response::result (src/tiny_jrpc/src/lib.rs, lines 353-360). -/
def Response.mkResult (id : Option Id) (value : Json) : Response :=
  { jsonrpc := "2.0", id := id, result := some value, error := none }

/-- Response::error (src/tiny_jrpc/src/lib.rs, lines 362-374). -/
def Response.mkError (id : Option Id) (code : Int) (message : String)
    (data : Option Json) : Response :=
  { jsonrpc := "2.0", id := id, result := none,
    error := some ⟨code, message, data⟩ }

/-- Response::from_error (src/tiny_jrpc/src/lib.rs, lines 376-383),
instantiated at the Error type through its AsRpcError mapping. -/
def Response.fromError (id : Option Id) (error : Error) : Response :=
  { jsonrpc := "2.0", id := id, result := none,
    error := some error.asRpcError }

/-- Response::unimplemented (src/tiny_jrpc/src/lib.rs, lines 385-387);
METHOD_NOT_FOUND is the JSON-RPC -32601 code. -/
def Response.unimplemented (id : Option Id) (message : String) : Response :=
  Response.mkError id (-32601) message none

/-- Response::is_error (src/tiny_jrpc/src/lib.rs, lines 389-391). -/
def Response.isError (r : Response) : Bool := r.error.isSome

/-- Response::is_result (src/tiny_jrpc/src/lib.rs, lines 393-395). -/
def Response.isResult (r : Response) : Bool := r.result.isSome

/-- Serialization of Id: serde(untagged), a bare number or string. -/
def Id.serialize : Id → Json
  | .number n => .num n
  | .string s => .str s

/-- Serialization of an optional value: None becomes JSON null (no skip
attribute on the field). -/
def serializeOpt (f : α → Json) : Option α → Json
  | none => .null
  | some a => f a

/-- Serialization of RpcError: all three fields are always emitted (no
skip attributes on struct RpcError); absent data is null. -/
def RpcError.serialize (e : RpcError) : Json :=
  .obj [("code", .num e.code), ("message", .str e.message),
        ("data", serializeOpt (fun v => v) e.data)]

/-- serde serialization of Response (src/tiny_jrpc/src/lib.rs, lines
342-350): jsonrpc and id are always emitted (id as null when None);
result and error carry skip_serializing_if Option::is_none, so an absent
field contributes no key at all. -/
def Response.serialize (r : Response) : Json :=
  .obj ([("jsonrpc", .str r.jsonrpc), ("id", serializeOpt Id.serialize r.id)]
    ++ (match r.result with
        | none => []
        | some v => [("result", v)])
    ++ (match r.error with
        | none => []
        | some e => [("error", e.serialize)]))

/-- The keys of the serialized Response object. -/
def Response.serializedKeys (r : Response) : List String :=
  match r.serialize with
  | .obj fields => fields.map (fun f => f.1)
  | _ => []

/-- The shared application state Arc Mutex T: an explicit lock flag and
the protected data.  The server receives this value and hands it to the
handler; any lock acquisition would flip the flag, so the flag records
whether the lock is held at the moment the handler is invoked. -/
structure Mutex (T : Type) where
  locked : Bool
  data : T

/-- HTTP headers as field-name / value pairs, as tiny_http hands them to
validate_jsonrpc_request via as_str on both sides. -/
def Header := String × String

/-- str::starts_with, modelled as the character-list prefix test. -/
def strStartsWith (s p : String) : Bool := p.data.isPrefixOf s.data

/-- validate_jsonrpc_request (src/tiny_jrpc/src/lib.rs, lines 258-285):
find the Content-Type header by exact string comparison of the field name,
require its value to equal exactly application/json, then read the body
and decode it.  The body reader and the JSON decoder (serde_json) are
external collaborators, passed as parameters. -/
def validateJsonrpcRequest (headers : List (String × String))
    (readBody : Except InnerError String)
    (decode : String → Except InnerError Request) :
    Except InnerError Request :=
  match headers.find? (fun h => h.1 == "Content-Type") with
  | none => .error .noContentType
  | some contentHeader =>
    if contentHeader.2 ≠ "application/json" then .error .wrongContentType
    else
      match readBody with
      | .error e => .error e
      | .ok s => decode s

/-- handle_jsonrpc_request (src/tiny_jrpc/src/lib.rs, lines 287-319):
check the jsonrpc version, check the reserved rpc. method prefix, then
call the user handler with the request and the shared state, converting
handler failures other than Stop into error responses with the original
id.  The Arc Mutex T is passed to the handler exactly as received; no
lock operation appears in this function. -/
def handleJsonrpcRequest {T : Type} (request : Request) (state : Mutex T)
    (process : Request → Mutex T → Except Error Response) :
    Except Error Response :=
  if request.jsonrpc ≠ "2.0" then
    .error (.inner .invalidVersion)
  else if strStartsWith request.method "rpc." then
    .error (.inner .reservedMethodPrefix)
  else
    let id := request.id
    match process request state with
    | .ok response => .ok response
    | .error .stop => .error .stop
    | .error (.inner err) => .ok (Response.fromError id (.inner err))
    | .error (.implementation err) =>
        .ok (Response.fromError id (.implementation err))

/-- The POST arm of the worker loop in JsonRpcServer::run
(src/tiny_jrpc/src/lib.rs, lines 170-193): given the outcome of
validation, dispatch the request; on Err(Stop) clear the shared running
flag and still build a Stop-derived error response with the request id;
on another dispatch error build an error response with the request id; on
a validation error build an error response with no id.  Returns the
response that is then sent, paired with the new value of the running
flag. -/
def handlePost {T : Type} (validated : Except InnerError Request)
    (state : Mutex T)
    (process : Request → Mutex T → Except Error Response)
    (running : Bool) : Response × Bool :=
  match validated with
  | .error err => (Response.fromError none (.inner err), running)
  | .ok request =>
    let id := request.id
    match handleJsonrpcRequest request state process with
    | .ok response => (response, running)
    | .error .stop => (Response.fromError id .stop, false)
    | .error err => (Response.fromError id err, running)

/-- Outcome of server.recv_timeout in the worker loop: a request arrived
(Ok Some), the bounded wait timed out (Ok None), or the receive failed
(Err). -/
inductive RecvOutcome where
  | received : RecvOutcome
  | timeout : RecvOutcome
  | recvError : RecvOutcome
deriving DecidableEq, Repr

/-- What the worker loop does next after a receive attempt. -/
inductive LoopAction where
  | handleRequest : LoopAction
  | repoll : LoopAction
  | exitLoop : LoopAction
deriving DecidableEq, Repr

/-- The polling decision of the worker loop (src/tiny_jrpc/src/lib.rs,
lines 77-94): a received request is handled; on timeout the shared
running flag decides between re-polling and exiting; a receive error is
logged and the loop re-polls. -/
def pollStep (running : Bool) (outcome : RecvOutcome) : LoopAction :=
  match outcome with
  | .received => .handleRequest
  | .timeout => if running then .repoll else .exitLoop
  | .recvError => .repoll

/-- The lifecycle-relevant state of struct JsonRpcServer
(src/tiny_jrpc/src/lib.rs, lines 30-35): the shared running flag and the
vector of worker join handles.  The transport handle and the Config play
no part in stop, is_running or join_threads and are omitted. -/
structure JsonRpcServer where
  running : Bool
  handles : List Nat
deriving DecidableEq, Repr

/-- JsonRpcServer::stop (src/tiny_jrpc/src/lib.rs, lines 225-227):
store false into the running flag. -/
def JsonRpcServer.stop (s : JsonRpcServer) : JsonRpcServer :=
  { s with running := false }

/-- JsonRpcServer::is_running (src/tiny_jrpc/src/lib.rs, lines 230-232). -/
def JsonRpcServer.isRunning (s : JsonRpcServer) : Bool := s.running

/-- JsonRpcServer::join_threads (src/tiny_jrpc/src/lib.rs, lines
235-239): pop every handle and join it; the state effect is that the
handle vector is drained. -/
def JsonRpcServer.joinThreads (s : JsonRpcServer) : JsonRpcServer :=
  { s with handles := [] }

/-- The continuation of handle_jsonrpc_request after the user handler
returns (the match at src/tiny_jrpc/src/lib.rs, lines 308-316), as a
function of the saved request id and the handler outcome. -/
def dispatchOutcome (id : Option Id) :
    Except Error Response → Except Error Response
  | .ok response => .ok response
  | .error .stop => .error .stop
  | .error (.inner err) => .ok (Response.fromError id (.inner err))
  | .error (.implementation err) =>
      .ok (Response.fromError id (.implementation err))

/-- A handler that reports, in its result, whether the shared-state lock
was held at the moment it was invoked. -/
def observeLock : Request → Mutex Unit → Except Error Response :=
  fun _ state => .ok (Response.mkResult none (.bool state.locked))

/-- A handler returning a response with both result and error populated;
the server forwards whatever Response the handler returns. -/
def bothFields : Request → Mutex Unit → Except Error Response :=
  fun _ _ =>
    .ok { jsonrpc := "2.0", id := some (.number 1),
          result := some (.bool true),
          error := some ⟨-32000, "also an error", none⟩ }

/-- A handler that requests shutdown with the Stop sentinel. -/
def stopHandler : Request → Mutex Unit → Except Error Response :=
  fun _ _ => .error .stop

/-- A handler answering every request with a null result. -/
def nullHandler : Request → Mutex Unit → Except Error Response :=
  fun req _ => .ok (Response.mkResult req.id .null)

/-- A second concrete handler, used to witness handler-independence. -/
def failHandler : Request → Mutex Unit → Except Error Response :=
  fun _ _ => .error (.implementation ⟨-32000, "fail", none⟩)

/-- A well-formed concrete request. -/
def echoRequest : Request :=
  ⟨"2.0", some (.number 1), "echo", some (.str "hi")⟩

/-- A concrete request to a reserved method, as in the rpc_dot_reserved
test. -/
def reservedRequest : Request :=
  ⟨"2.0", some (.number 1), "rpc.reserved", none⟩

/-- A concrete request with a wrong protocol version. -/
def badVersionRequest : Request :=
  ⟨"1.0", some (.number 2), "echo", none⟩

/-- A concrete request whose handler will answer with Stop, as in the
spec scenario with id 5. -/
def stopRequest : Request :=
  ⟨"2.0", some (.number 5), "shutdown", none⟩

/-- C3: for every decoded request whose method starts with the reserved
prefix rpc., the POST arm sends an error response whose id equals the
request's id (with no result), and the user handler is never invoked:
the outcome is identical for any two handlers f and g. -/
theorem reservedMethodRejected {T : Type} (request : Request)
    (state : Mutex T) (f g : Request → Mutex T → Except Error Response)
    (running : Bool) (h : strStartsWith request.method "rpc." = true) :
    (handlePost (.ok request) state f running).1.id = request.id
    ∧ (handlePost (.ok request) state f running).1.error.isSome = true
    ∧ (handlePost (.ok request) state f running).1.result = none
    ∧ handlePost (.ok request) state f running
        = handlePost (.ok request) state g running := by
  by_cases hv : request.jsonrpc = "2.0" <;>
    simp [handlePost, handleJsonrpcRequest, hv, h, Response.fromError]

/-- C3 witness: the reserved request rpc.reserved, with two distinct
concrete handlers. -/
theorem reservedMethodRejected_witness :
    (handlePost (.ok reservedRequest) (⟨false, ()⟩ : Mutex Unit)
        nullHandler true).1.id = reservedRequest.id
    ∧ (handlePost (.ok reservedRequest) (⟨false, ()⟩ : Mutex Unit)
        nullHandler true).1.error.isSome = true
    ∧ (handlePost (.ok reservedRequest) (⟨false, ()⟩ : Mutex Unit)
        nullHandler true).1.result = none
    ∧ handlePost (.ok reservedRequest) (⟨false, ()⟩ : Mutex Unit)
        nullHandler true
        = handlePost (.ok reservedRequest) (⟨false, ()⟩ : Mutex Unit)
            failHandler true :=
  reservedMethodRejected reservedRequest ⟨false, ()⟩ nullHandler
    failHandler true rfl

/-- C4: for every decoded request whose jsonrpc field differs from 2.0,
the POST arm sends the InvalidVersion error response carrying the
request's id; the right-hand side mentions no handler, so the user
handler is not invoked. -/
theorem invalidVersionRejected {T : Type} (request : Request)
    (state : Mutex T) (f : Request → Mutex T → Except Error Response)
    (running : Bool) (h : request.jsonrpc ≠ "2.0") :
    handlePost (.ok request) state f running
      = (Response.fromError request.id (.inner .invalidVersion), running)
    ∧ (handlePost (.ok request) state f running).1.error.isSome = true
    ∧ (handlePost (.ok request) state f running).1.id = request.id := by
  simp [handlePost, handleJsonrpcRequest, h, Response.fromError]

/-- C4 witness: the concrete request with version 1.0. -/
theorem invalidVersionRejected_witness :
    handlePost (.ok badVersionRequest) (⟨false, ()⟩ : Mutex Unit)
        nullHandler true
      = (Response.fromError badVersionRequest.id (.inner .invalidVersion),
          true)
    ∧ (handlePost (.ok badVersionRequest) (⟨false, ()⟩ : Mutex Unit)
        nullHandler true).1.error.isSome = true
    ∧ (handlePost (.ok badVersionRequest) (⟨false, ()⟩ : Mutex Unit)
        nullHandler true).1.id = badVersionRequest.id :=
  invalidVersionRejected badVersionRequest ⟨false, ()⟩ nullHandler true
    (by decide)

/-- C7: a worker in the polling state exits if and only if the receive
timed out while the running flag is false; a timeout with the flag true
re-polls, and a hard receive error re-polls, never exiting. -/
theorem pollExitCondition (running : Bool) (outcome : RecvOutcome) :
    (pollStep running outcome = .exitLoop
      ↔ outcome = .timeout ∧ running = false)
    ∧ pollStep true .timeout = .repoll
    ∧ pollStep running .recvError = .repoll := by
  cases outcome <;> cases running <;> simp [pollStep]

/-- C7 witness: the stopped-timeout instance of the exit condition. -/
theorem pollExitCondition_witness : pollStep false .timeout = .exitLoop :=
  (pollExitCondition false .timeout).1.mpr ⟨rfl, rfl⟩

/-- C8: stop is idempotent (any positive number of applications equals
one), join_threads on a drained server is the identity, and join_threads
is idempotent in general. -/
theorem lifecycleIdempotence :
    (∀ (s : JsonRpcServer) (n : Nat),
        JsonRpcServer.stop^[n + 1] s = s.stop)
    ∧ (∀ s : JsonRpcServer, s.handles = [] → s.joinThreads = s)
    ∧ (∀ s : JsonRpcServer, s.joinThreads.joinThreads = s.joinThreads) := by
  refine ⟨fun s n => ?_, fun s h => ?_, fun s => rfl⟩
  · rw [Function.iterate_succ_apply]
    exact Function.iterate_fixed rfl n
  · cases s with
    | mk running handles =>
      cases h
      rfl

/-- C8 witness: three stops equal one on a concrete server, and
join_threads on a drained concrete server changes nothing. -/
theorem lifecycleIdempotence_witness :
    JsonRpcServer.stop^[3] ⟨true, [0, 1]⟩
        = JsonRpcServer.stop ⟨true, [0, 1]⟩
    ∧ JsonRpcServer.joinThreads ⟨true, []⟩ = ⟨true, []⟩ :=
  ⟨lifecycleIdempotence.1 ⟨true, [0, 1]⟩ 2,
    lifecycleIdempotence.2.1 ⟨true, []⟩ rfl⟩

/-- C9: every Response built by the constructors mkResult, mkError,
fromError and unimplemented carries jsonrpc equal to 2.0; in particular
the error response rejecting a request for an invalid protocol version
still declares version 2.0. -/
theorem responsesDeclareVersionTwo :
    (∀ (id : Option Id) (v : Json), (Response.mkResult id v).jsonrpc = "2.0")
    ∧ (∀ (id : Option Id) (code : Int) (message : String)
        (data : Option Json),
        (Response.mkError id code message data).jsonrpc = "2.0")
    ∧ (∀ (id : Option Id) (e : Error),
        (Response.fromError id e).jsonrpc = "2.0")
    ∧ (∀ (id : Option Id) (message : String),
        (Response.unimplemented id message).jsonrpc = "2.0")
    ∧ (∀ (T : Type) (request : Request) (state : Mutex T)
        (f : Request → Mutex T → Except Error Response) (running : Bool),
        request.jsonrpc ≠ "2.0" →
        (handlePost (.ok request) state f running).1.jsonrpc = "2.0") := by
  refine ⟨fun id v => rfl, fun id code message data => rfl,
    fun id e => rfl, fun id message => rfl,
    fun T request state f running h => ?_⟩
  simp [handlePost, handleJsonrpcRequest, h, Response.fromError]

/-- C9 witness: the version-rejection response for the concrete 1.0
request still declares 2.0. -/
theorem responsesDeclareVersionTwo_witness :
    (handlePost (.ok badVersionRequest) (⟨false, ()⟩ : Mutex Unit)
        nullHandler true).1.jsonrpc = "2.0" :=
  responsesDeclareVersionTwo.2.2.2.2 Unit badVersionRequest ⟨false, ()⟩
    nullHandler true (by decide)

/-- C1 counterexample: dispatching a valid concrete request from an
unlocked shared state invokes the handler with the lock still free: the
observing handler reads locked = false from the very mutex it receives,
so the handler is not invoked while the lock is held. -/
theorem handlerObservesLockFree :
    handleJsonrpcRequest echoRequest (⟨false, ()⟩ : Mutex Unit) observeLock
      = .ok (Response.mkResult none (.bool false)) := rfl

/-- C1 (amended): the dispatcher passes the shared state mutex to the
handler exactly as received, performing no lock acquisition of its own;
in particular a handler dispatched from an unlocked state receives the
mutex with the lock free.  Mutual exclusion over the inner state is
therefore only what the handler itself provides by locking. -/
theorem handlerReceivesMutexUnlocked {T : Type} (request : Request)
    (data : T) (f : Request → Mutex T → Except Error Response)
    (h1 : request.jsonrpc = "2.0")
    (h2 : strStartsWith request.method "rpc." = false) :
    handleJsonrpcRequest request ⟨false, data⟩ f
      = dispatchOutcome request.id (f request ⟨false, data⟩) := by
  cases hf : f request ⟨false, data⟩ with
  | ok r => simp [handleJsonrpcRequest, dispatchOutcome, h1, h2, hf]
  | error e =>
    cases e <;> simp [handleJsonrpcRequest, dispatchOutcome, h1, h2, hf]

/-- C1 witness: the amended statement at the concrete echo request with
the null handler. -/
theorem handlerReceivesMutexUnlocked_witness :
    handleJsonrpcRequest echoRequest (⟨false, ()⟩ : Mutex Unit) nullHandler
      = dispatchOutcome echoRequest.id
          (nullHandler echoRequest ⟨false, ()⟩) :=
  handlerReceivesMutexUnlocked echoRequest () nullHandler rfl rfl

/-- C2 counterexample: for a validly decoded request, the server sends
the handler's response unchanged, so a handler returning a response with
both result and error populated yields a sent response in which both
fields are present. -/
theorem handlerResponseBothFieldsSent :
    ((handlePost (.ok echoRequest) (⟨false, ()⟩ : Mutex Unit) bothFields
        true).1.result).isSome = true
    ∧ ((handlePost (.ok echoRequest) (⟨false, ()⟩ : Mutex Unit) bothFields
        true).1.error).isSome = true :=
  ⟨rfl, rfl⟩

/-- C2 (amended): every Response built by the server's own constructors
has exactly one of result and error present, and for every Response the
absent field is omitted from the serialized JSON object (its key does not
occur), never emitted as null; handler-produced responses are forwarded
unchanged, so their field discipline is the handler's responsibility. -/
theorem responseFieldDiscipline :
    (∀ (id : Option Id) (v : Json),
        (Response.mkResult id v).result.isSome = true
        ∧ (Response.mkResult id v).error = none)
    ∧ (∀ (id : Option Id) (code : Int) (message : String)
        (data : Option Json),
        (Response.mkError id code message data).error.isSome = true
        ∧ (Response.mkError id code message data).result = none)
    ∧ (∀ (id : Option Id) (e : Error),
        (Response.fromError id e).error.isSome = true
        ∧ (Response.fromError id e).result = none)
    ∧ (∀ (id : Option Id) (message : String),
        (Response.unimplemented id message).error.isSome = true
        ∧ (Response.unimplemented id message).result = none)
    ∧ (∀ r : Response, r.result = none → "result" ∉ r.serializedKeys)
    ∧ (∀ r : Response, r.error = none → "error" ∉ r.serializedKeys) := by
  refine ⟨fun id v => ⟨rfl, rfl⟩, fun id code message data => ⟨rfl, rfl⟩,
    fun id e => ⟨rfl, rfl⟩, fun id message => ⟨rfl, rfl⟩,
    fun r h => ?_, fun r h => ?_⟩
  · cases he : r.error <;>
      simp [Response.serializedKeys, Response.serialize, h, he]
  · cases hr : r.result <;>
      simp [Response.serializedKeys, Response.serialize, h, hr]

/-- C2 witness: a concrete error response serializes without a result
key, and a concrete result response serializes without an error key. -/
theorem responseFieldDiscipline_witness :
    "result" ∉ (Response.fromError none .stop).serializedKeys
    ∧ "error" ∉ (Response.mkResult none .null).serializedKeys :=
  ⟨responseFieldDiscipline.2.2.2.2.1 (Response.fromError none .stop) rfl,
    responseFieldDiscipline.2.2.2.2.2 (Response.mkResult none .null) rfl⟩

/-- C5: a POST whose headers contain no field named Content-Type fails
with NoContentType, and one whose Content-Type value differs from
application/json fails with WrongContentType; in both cases the outcome
mentions neither the body reader nor the decoder (decoding is never
reached) and the resulting error response carries id none. -/
theorem contentTypeCheckedBeforeDecoding
    (headers : List (String × String)) (readBody : Except InnerError String)
    (decode : String → Except InnerError Request) (T : Type)
    (state : Mutex T) (f : Request → Mutex T → Except Error Response)
    (running : Bool) :
    (headers.find? (fun h => h.1 == "Content-Type") = none →
        validateJsonrpcRequest headers readBody decode
            = .error .noContentType
        ∧ handlePost (validateJsonrpcRequest headers readBody decode)
              state f running
            = (Response.fromError none (.inner .noContentType), running)
        ∧ (handlePost (validateJsonrpcRequest headers readBody decode)
              state f running).1.id = none)
    ∧ (∀ ch, headers.find? (fun h => h.1 == "Content-Type") = some ch →
        ch.2 ≠ "application/json" →
        validateJsonrpcRequest headers readBody decode
            = .error .wrongContentType
        ∧ handlePost (validateJsonrpcRequest headers readBody decode)
              state f running
            = (Response.fromError none (.inner .wrongContentType), running)
        ∧ (handlePost (validateJsonrpcRequest headers readBody decode)
              state f running).1.id = none) := by
  constructor
  · intro h
    simp [validateJsonrpcRequest, h, handlePost, Response.fromError]
  · intro ch hf hv
    simp [validateJsonrpcRequest, hf, hv, handlePost, Response.fromError]

/-- C5 witness: a POST with no headers at all, and one with
Content-Type text/plain, with a concrete reader and decoder. -/
theorem contentTypeCheckedBeforeDecoding_witness :
    (validateJsonrpcRequest [] (.ok "") (fun _ => .error .malformed)
        = .error .noContentType
      ∧ handlePost
            (validateJsonrpcRequest [] (.ok "") (fun _ => .error .malformed))
            (⟨false, ()⟩ : Mutex Unit) nullHandler true
          = (Response.fromError none (.inner .noContentType), true)
      ∧ (handlePost
            (validateJsonrpcRequest [] (.ok "") (fun _ => .error .malformed))
            (⟨false, ()⟩ : Mutex Unit) nullHandler true).1.id = none)
    ∧ (validateJsonrpcRequest [("Content-Type", "text/plain")] (.ok "")
            (fun _ => .error .malformed)
        = .error .wrongContentType
      ∧ handlePost
            (validateJsonrpcRequest [("Content-Type", "text/plain")] (.ok "")
              (fun _ => .error .malformed))
            (⟨false, ()⟩ : Mutex Unit) nullHandler true
          = (Response.fromError none (.inner .wrongContentType), true)
      ∧ (handlePost
            (validateJsonrpcRequest [("Content-Type", "text/plain")] (.ok "")
              (fun _ => .error .malformed))
            (⟨false, ()⟩ : Mutex Unit) nullHandler true).1.id = none) :=
  ⟨(contentTypeCheckedBeforeDecoding [] (.ok "") (fun _ => .error .malformed)
      Unit ⟨false, ()⟩ nullHandler true).1 rfl,
    (contentTypeCheckedBeforeDecoding [("Content-Type", "text/plain")]
      (.ok "") (fun _ => .error .malformed) Unit ⟨false, ()⟩ nullHandler
      true).2 ("Content-Type", "text/plain") rfl (by decide)⟩

/-- C6: whenever the dispatcher returns the Stop sentinel, the POST arm
clears the running flag and still sends the Stop-derived error response
carrying the triggering request's original id; with the flag false the
next polling timeout exits the worker loop. -/
theorem stopSignalHandling {T : Type} (request : Request) (state : Mutex T)
    (f : Request → Mutex T → Except Error Response) (running : Bool)
    (h : handleJsonrpcRequest request state f = .error .stop) :
    handlePost (.ok request) state f running
      = (Response.fromError request.id .stop, false)
    ∧ (handlePost (.ok request) state f running).1.id = request.id
    ∧ (handlePost (.ok request) state f running).1.error.isSome = true
    ∧ (handlePost (.ok request) state f running).2 = false
    ∧ pollStep (handlePost (.ok request) state f running).2 .timeout
        = .exitLoop := by
  simp [handlePost, h, Response.fromError, pollStep]

/-- C6 witness: the concrete request with id 5 whose handler answers
with Stop. -/
theorem stopSignalHandling_witness :
    handlePost (.ok stopRequest) (⟨false, ()⟩ : Mutex Unit) stopHandler true
      = (Response.fromError stopRequest.id .stop, false)
    ∧ (handlePost (.ok stopRequest) (⟨false, ()⟩ : Mutex Unit) stopHandler
        true).1.id = stopRequest.id
    ∧ (handlePost (.ok stopRequest) (⟨false, ()⟩ : Mutex Unit) stopHandler
        true).1.error.isSome = true
    ∧ (handlePost (.ok stopRequest) (⟨false, ()⟩ : Mutex Unit) stopHandler
        true).2 = false
    ∧ pollStep (handlePost (.ok stopRequest) (⟨false, ()⟩ : Mutex Unit)
        stopHandler true).2 .timeout = .exitLoop :=
  stopSignalHandling stopRequest ⟨false, ()⟩ stopHandler true rfl

/-- C10: the validator compares the header field name and value by exact
case-sensitive string equality, so a lowercase content-type header is
rejected as NoContentType and an upper-case value as WrongContentType,
for every body reader and decoder. -/
theorem contentTypeCaseSensitive (readBody : Except InnerError String)
    (decode : String → Except InnerError Request) :
    validateJsonrpcRequest [("content-type", "application/json")] readBody
        decode = .error .noContentType
    ∧ validateJsonrpcRequest [("Content-Type", "APPLICATION/JSON")] readBody
        decode = .error .wrongContentType :=
  ⟨rfl, rfl⟩

end TinyJrpc
